import Mathlib

/-!
Verification of the gray-scott ensemble orchestrator
(`src/orchestrator/orchestrator.py`, `src/orchestrator/ensemble_runs.py`)
against its natural-language specification.

The Python code is shallowly embedded: the ambient environment is a list of
variable names, the filesystem is a decidable existence predicate on path
strings, JSON configurations are association lists, and the multiprocessing
queue/worker system is a small-step transition system driven by an explicit
schedule.  Grid values `round(base + i*step, 3)` are represented exactly in
thousandths (integers): for every grid point of the sweep the Python float
computation rounds to exactly the 3-decimal value `base + i*step`, and the
f-string renders it as the shortest decimal, which `format_milli` below
reproduces.
-/

namespace GS

/-! ## Launch command builder (`has_slurm`, `form_mpi_launch_cmd`) -/

/-- Python `v.startswith(pre)`, as a character-list prefix test. -/
def py_startswith (v pre : String) : Bool :=
  pre.data.isPrefixOf v.data

/-- `has_slurm()`: any environment variable name starts with "SLURM".
The environment is modelled as the list of variable names. -/
def has_slurm (env : List String) : Bool :=
  env.any (fun v => py_startswith v "SLURM")

/-- `form_mpi_launch_cmd(cpu_count)`: `f"srun -n {cpu_count} -N 1".split()`
when SLURM is detected, else `f"mpirun -np {cpu_count} ".split()` (Python's
`split()` drops the trailing empty field). -/
def form_mpi_launch_cmd (env : List String) (cpu_count : Nat) : List String :=
  if has_slurm env then
    ["srun", "-n", toString cpu_count, "-N", "1"]
  else
    ["mpirun", "-np", toString cpu_count]

/-! ## Grid values and directory names -/

/-- Renders a grid value given in thousandths (0 < m < 1000) the way the
Python f-string renders the rounded float: shortest decimal form, e.g.
10 ↦ "0.01", 100 ↦ "0.1", 350 ↦ "0.35". -/
def format_milli (m : Nat) : String :=
  let d1 := m / 100
  let d2 := m / 10 % 10
  let d3 := m % 10
  if d3 ≠ 0 then s!"0.{d1}{d2}{d3}"
  else if d2 ≠ 0 then s!"0.{d1}{d2}"
  else s!"0.{d1}"

/-- `os.path.join(a, b)` for the cases arising here (`b` relative). -/
def os_path_join (a b : String) : String :=
  if b.startsWith "/" then b
  else if a = "" then b
  else if a.endsWith "/" then a ++ b
  else a ++ "/" ++ b

/-- `f"F_{f}-k_{k}"` joined under the ensemble root, with `f`, `k` in
thousandths. -/
def run_dirname (root : String) (fm km : Nat) : String :=
  os_path_join root ("F_" ++ format_milli fm ++ "-k_" ++ format_milli km)

/-- The grid points `(round(0.01+i*0.01,3), round(0.05+j*0.05,3))` in
thousandths, enumerated in the loop order of `add_gs_runs_to_q`
(`i` outer over `count_f`, `j` inner over `count_k`). -/
def grid_points (count_f count_k : Nat) : List (Nat × Nat) :=
  (List.range count_f).flatMap (fun i =>
    (List.range count_k).map (fun j => (10 + i * 10, 50 + j * 50)))

/-! ## Configuration dictionaries -/

/-- A JSON value as far as the orchestrator observes it: a sweep value in
thousandths, or any other (opaque) payload carried through unchanged. -/
inductive JVal where
  | num (milli : Nat)
  | other (s : String)
deriving DecidableEq, Repr

/-- A JSON object in insertion order (Python dict). -/
abbrev Config := List (String × JVal)

/-- Python `d[key] = v`: replace the value of an existing key in place,
else append the new binding. -/
def dictSet (cfg : Config) (key : String) (v : JVal) : Config :=
  if cfg.any (fun p => p.1 = key) then
    cfg.map (fun p => if p.1 = key then (key, v) else p)
  else
    cfg ++ [(key, v)]

/-- Python `d[key]` (first binding; keys are unique in a dict). -/
def dictGet (cfg : Config) (key : String) : Option JVal :=
  (cfg.find? (fun p => p.1 = key)).map (fun p => p.2)

/-! ## The generator `add_gs_runs_to_q`

The loop body mutates the single dict `gs_json` loaded from the template
file (`gs_json["F"] = f; gs_json["k"] = k`) and, when the target directory
does not yet exist, puts `{"dirname": dirname, "json": gs_json}` on the
queue.  The put stores a reference to that same dict object; no copy is
made, and the dict keeps being mutated on later iterations
(`multiprocessing.Queue.put` serializes it asynchronously in a feeder
thread).  The embedding therefore threads the one shared config through
the loop and records per enqueued item the dirname together with the
config value at put time; the value the item's reference denotes once the
loop has finished is the returned final config. -/

/-- State threaded through the generator loop: the shared `gs_json` dict,
the enqueued items (dirname, config snapshot at put time), the skipped
dirnames, and `run_count`. -/
structure GenState where
  cfg : Config
  enqueued : List (String × Config)
  skipped : List String
  run_count : Nat
deriving Repr

/-- One iteration of the inner loop body of `add_gs_runs_to_q` at grid
point `(fm, km)` (thousandths), over filesystem `ex` and root
`ensemble_root`. -/
def gen_step (ex : String → Bool) (ensemble_root : String)
    (s : GenState) (p : Nat × Nat) : GenState :=
  let cfg := dictSet (dictSet s.cfg "F" (JVal.num p.1)) "k" (JVal.num p.2)
  let dirname := run_dirname ensemble_root p.1 p.2
  if ex dirname then
    { s with cfg := cfg, skipped := s.skipped ++ [dirname] }
  else
    { cfg := cfg,
      enqueued := s.enqueued ++ [(dirname, cfg)],
      skipped := s.skipped,
      run_count := s.run_count + 1 }

/-- `add_gs_runs_to_q`: the double loop over the grid, starting from the
template `gs_json` loaded from the file named by the startup settings.
`count_f = count_k = 10` in `orchestrator.py`, `2` in `ensemble_runs.py`. -/
def add_gs_runs_to_q (ex : String → Bool) (ensemble_root : String)
    (gs_json : Config) (count_f count_k : Nat) : GenState :=
  (grid_points count_f count_k).foldl (gen_step ex ensemble_root)
    { cfg := gs_json, enqueued := [], skipped := [], run_count := 0 }

/-! ## Startup validation `validate_gs` -/

/-- The four required keys of the startup settings file. -/
def required_keys : List String :=
  ["gs_exe", "gs_json", "adios2_xml", "ensemble_root"]

/-- `validate_gs`: the startup settings mapping (key/path pairs) must
contain the four required keys, and `os.path.exists` must hold of every
value of the mapping — all values, not only the required ones. -/
def validate_gs (ex : String → Bool) (input : List (String × String)) : Bool :=
  (required_keys.all (fun k => input.any (fun p => p.1 = k))) &&
    (input.all (fun p => ex p.2))

/-! ## The run executor / worker loop `process_f`

`process_f` loops on `q.get()`: `None` breaks; otherwise the body runs
`os.makedirs(dirname)` (raises `FileExistsError` if the directory exists —
no enclosing try), writes `settings-files.json`, re-opens the startup
settings file `sys.argv[1]` to obtain `adios2_xml` and `gs_exe`, copies
`adios2.xml` (raises `FileNotFoundError` if the source is missing), and
launches the external process; only `subprocess.CalledProcessError` (a
non-zero exit with `check=True`) is caught and logged. -/

/-- A queue work item: `{"dirname": ..., "json": ...}`. -/
structure Task where
  dirname : String
  json : Config
deriving DecidableEq, Repr

/-- The startup settings fields the worker loop body re-reads per task. -/
structure Settings where
  adios2_xml : String
  gs_exe : String
deriving DecidableEq, Repr

/-- An uncaught Python exception escaping the worker loop body. -/
inductive ExecError where
  | fileExists (dir : String)
  | fileNotFound (path : String)
deriving DecidableEq, Repr

/-- The filesystem as the worker observes it: existing directories and
existing files. -/
structure FS where
  dirs : List String
  files : List String
deriving DecidableEq, Repr

/-- Per-run record: the run directory, the external process's exit
status, and whether `"Run failed with {e.returncode}"` was printed. -/
structure RunOutcome where
  dirname : String
  exit_code : Int
  logged_failure : Bool
deriving DecidableEq, Repr

/-- One iteration of the worker loop body on task `t`.  `exit_code` is
the oracle giving the exit status of the external process launched in a
given run directory.  Errors are the uncaught exceptions. -/
def execute_one (st : Settings) (exit_code : String → Int)
    (fs : FS) (t : Task) : Except ExecError (FS × RunOutcome) :=
  if fs.dirs.contains t.dirname then
    Except.error (ExecError.fileExists t.dirname)
  else
    let fs1 : FS := { dirs := fs.dirs ++ [t.dirname],
                      files := fs.files ++ [os_path_join t.dirname "settings-files.json"] }
    if fs1.files.contains st.adios2_xml then
      let fs2 : FS := { fs1 with
                        files := fs1.files ++ [os_path_join t.dirname "adios2.xml"] }
      let ec := exit_code t.dirname
      Except.ok (fs2, { dirname := t.dirname, exit_code := ec,
                        logged_failure := decide (ec ≠ 0) })
    else
      Except.error (ExecError.fileNotFound st.adios2_xml)

/-- What a worker produced by the time it left the loop: the filesystem,
the per-run outcomes in order, and how many times the loop body re-opened
the startup settings file `sys.argv[1]`. -/
structure WorkerRes where
  fs : FS
  outcomes : List RunOutcome
  settings_reads : Nat
deriving DecidableEq, Repr

/-- `process_f`: the worker loop over its incoming messages (`none` is the
termination token).  An uncaught exception in the body terminates the
worker with that error; a caught non-zero exit is recorded and the loop
continues.  Each executed body re-opens the startup settings file once
(the `open(sys.argv[1])` inside the loop), counted in `settings_reads`. -/
def process_f (st : Settings) (exit_code : String → Int) :
    List (Option Task) → FS → Except ExecError WorkerRes
  | [], fs => Except.ok ⟨fs, [], 0⟩
  | none :: _, fs => Except.ok ⟨fs, [], 0⟩
  | some t :: rest, fs =>
    match execute_one st exit_code fs t with
    | Except.error e => Except.error e
    | Except.ok (fs1, out) =>
      match process_f st exit_code rest fs1 with
      | Except.error e => Except.error e
      | Except.ok r => Except.ok ⟨r.fs, out :: r.outcomes, r.settings_reads + 1⟩

/-! ## The worker pool (`main`)

`main` spawns `node_count` workers sharing one FIFO queue, enqueues every
generated item, then enqueues one `None` per worker, then joins all
workers, then prints `DONE`.  The queue/worker dynamics are modelled as a
transition system: a schedule names which worker attempts `q.get()` next;
a terminated worker never pops, and a pop on an empty queue blocks (a
no-op step).  Work items are identified by their position payload. -/

/-- A queue message: a work item (identified by a natural payload) or the
`None` termination token. -/
inductive Msg where
  | item (t : Nat)
  | token
deriving DecidableEq, Repr

/-- The pool state: the FIFO queue contents, each worker's terminated
flag, and the log of (worker, item) dequeues. -/
structure PoolState where
  queue : List Msg
  workers : List Bool
  processed : List (Nat × Nat)
deriving DecidableEq, Repr

/-- The state after `main` spawned `n` workers, enqueued all `items`, and
then enqueued exactly `n` termination tokens (FIFO: every item precedes
every token). -/
def init_pool (n : Nat) (items : List Nat) : PoolState :=
  { queue := items.map Msg.item ++ List.replicate n Msg.token,
    workers := List.replicate n false,
    processed := [] }

/-- Worker `w` attempts one `q.get()`.  A non-existent or terminated
worker, or an empty queue, leaves the state unchanged; an item is
processed (logged into `processed`); a token terminates the worker. -/
def pool_step (s : PoolState) (w : Nat) : PoolState :=
  match s.workers[w]? with
  | none => s
  | some true => s
  | some false =>
    match s.queue with
    | [] => s
    | Msg.item t :: q => { s with queue := q, processed := s.processed ++ [(w, t)] }
    | Msg.token :: q => { s with queue := q, workers := s.workers.set w true }

/-- Run the pool under a schedule of worker indices. -/
def run_pool (s : PoolState) : List Nat → PoolState
  | [] => s
  | w :: ws => run_pool (pool_step s w) ws

/-- The supervisor's own sequential actions in `main`, in program order:
spawn each worker, enqueue every generated item, enqueue one token per
worker, join every worker, then report completion. -/
inductive SupEvent where
  | spawn
  | putItem (t : Nat)
  | putToken
  | joinWorker
  | reportDone
deriving DecidableEq, Repr

/-- The event trace of `main` after successful validation. -/
def supervisor_events (n : Nat) (items : List Nat) : List SupEvent :=
  List.replicate n SupEvent.spawn ++ items.map SupEvent.putItem ++
    List.replicate n SupEvent.putToken ++ List.replicate n SupEvent.joinWorker ++
    [SupEvent.reportDone]

/-- `main`: `validate_gs` runs first and an assertion failure aborts the
process before any worker is spawned; otherwise the supervisor performs
its event sequence. -/
def main_model (ex : String → Bool) (input : List (String × String))
    (n : Nat) (items : List Nat) : Except String (List SupEvent) :=
  if validate_gs ex input then Except.ok (supervisor_events n items)
  else Except.error "ConfigValidationError"

/-- The directory names of a grid, in generation order. -/
def grid_dirnames (root : String) (count_f count_k : Nat) : List String :=
  (grid_points count_f count_k).map (fun p => run_dirname root p.1 p.2)

/-- Invariant of the pool dynamics: some prefix of the FIFO queue has been
consumed, consisting of the first `p` items (each logged exactly once, in
order) and `t` tokens (each having terminated one worker), and a token can
only have been consumed after every item was. -/
def PoolInv (n : Nat) (items : List Nat) (s : PoolState) : Prop :=
  s.workers.length = n ∧
  ∃ p t, p ≤ items.length ∧ t ≤ n ∧ (0 < t → p = items.length) ∧
    s.workers.count true = t ∧
    s.processed.map Prod.snd = items.take p ∧
    s.queue = (items.drop p).map Msg.item ++ List.replicate (n - t) Msg.token

/-! ## Helper lemmas about the generator -/

lemma gen_foldl_spec (ex : String → Bool) (root : String) (ps : List (Nat × Nat))
    (s : GenState) :
    (ps.foldl (gen_step ex root) s).enqueued.map Prod.fst =
        s.enqueued.map Prod.fst ++
          ((ps.map (fun p => run_dirname root p.1 p.2)).filter (fun d => !ex d)) ∧
    (ps.foldl (gen_step ex root) s).skipped =
        s.skipped ++ ((ps.map (fun p => run_dirname root p.1 p.2)).filter (fun d => ex d)) ∧
    (ps.foldl (gen_step ex root) s).run_count =
        s.run_count +
          ((ps.map (fun p => run_dirname root p.1 p.2)).filter (fun d => !ex d)).length ∧
    (ps.foldl (gen_step ex root) s).enqueued.length =
        s.enqueued.length +
          ((ps.map (fun p => run_dirname root p.1 p.2)).filter (fun d => !ex d)).length := by
  induction ps generalizing s with
  | nil => simp
  | cons p ps ih =>
    obtain ⟨ih1, ih2, ih3, ih4⟩ := ih (gen_step ex root s p)
    by_cases h : ex (run_dirname root p.1 p.2) = true
    · constructor
      · rw [List.foldl_cons, ih1]
        simp [gen_step, h]
      constructor
      · rw [List.foldl_cons, ih2]
        simp [gen_step, h]
      constructor
      · rw [List.foldl_cons, ih3]
        simp [gen_step, h]
      · rw [List.foldl_cons, ih4]
        simp [gen_step, h]
    · rw [Bool.not_eq_true] at h
      constructor
      · rw [List.foldl_cons, ih1]
        simp [gen_step, h]
      constructor
      · rw [List.foldl_cons, ih2]
        simp [gen_step, h]
      constructor
      · rw [List.foldl_cons, ih3]
        simp [gen_step, h, Nat.add_assoc, Nat.add_comm 1]
      · rw [List.foldl_cons, ih4]
        simp [gen_step, h, Nat.add_assoc, Nat.add_comm 1]

/-- The generator's outputs, characterized by the filesystem filter on the
grid's directory names. -/
lemma add_gs_runs_spec (ex : String → Bool) (root : String) (tmpl : Config)
    (cf ck : Nat) :
    (add_gs_runs_to_q ex root tmpl cf ck).enqueued.map Prod.fst =
        (grid_dirnames root cf ck).filter (fun d => !ex d) ∧
    (add_gs_runs_to_q ex root tmpl cf ck).skipped =
        (grid_dirnames root cf ck).filter (fun d => ex d) ∧
    (add_gs_runs_to_q ex root tmpl cf ck).run_count =
        ((grid_dirnames root cf ck).filter (fun d => !ex d)).length ∧
    (add_gs_runs_to_q ex root tmpl cf ck).enqueued.length =
        ((grid_dirnames root cf ck).filter (fun d => !ex d)).length := by
  have h := gen_foldl_spec ex root (grid_points cf ck)
    { cfg := tmpl, enqueued := [], skipped := [], run_count := 0 }
  simpa [add_gs_runs_to_q, grid_dirnames] using h

lemma grid_dirnames_length_10 (root : String) :
    (grid_dirnames root 10 10).length = 100 := by
  simp [grid_dirnames, grid_points]
  decide

/-! ## Helper lemmas about the worker pool -/

lemma pool_inv_init (n : Nat) (items : List Nat) : PoolInv n items (init_pool n items) := by
  refine ⟨by simp [init_pool], 0, 0, by simp, by simp, by simp, ?_, by simp [init_pool], ?_⟩
  · simp [init_pool, List.count_replicate]
  · simp [init_pool]

lemma pool_inv_step (n : Nat) (items : List Nat) (s : PoolState) (w : Nat)
    (h : PoolInv n items s) : PoolInv n items (pool_step s w) := by
  obtain ⟨hlen, p, t, hp, ht, hpt, hcount, hproc, hqueue⟩ := h
  cases hw : s.workers[w]? with
  | none =>
    simpa [pool_step, hw] using
      ⟨hlen, p, t, hp, ht, hpt, hcount, hproc, hqueue⟩
  | some b =>
    cases b with
    | true =>
      simpa [pool_step, hw] using
        ⟨hlen, p, t, hp, ht, hpt, hcount, hproc, hqueue⟩
    | false =>
      cases hd : items.drop p with
      | nil =>
        have hple : items.length ≤ p := List.drop_eq_nil_iff.mp hd
        have hpeq : p = items.length := Nat.le_antisymm hp hple
        cases hnt : n - t with
        | zero =>
          have hq : s.queue = [] := by simp [hqueue, hd, hnt]
          simpa [pool_step, hw, hq] using
            ⟨hlen, p, t, hp, ht, hpt, hcount, hproc, hqueue⟩
        | succ m =>
          have hq : s.queue = Msg.token :: List.replicate m Msg.token := by
            simp [hqueue, hd, hnt, List.replicate_succ]
          have hwlt : w < s.workers.length := by
            have := List.getElem?_eq_some_iff.mp hw
            exact this.1
          have hwget : s.workers[w] = false := by
            obtain ⟨hlt, hget⟩ := List.getElem?_eq_some_iff.mp hw
            exact hget
          refine ⟨by simpa [pool_step, hw, hq] using hlen, p, t + 1, hp, ?_, ?_, ?_, ?_, ?_⟩
          · omega
          · intro _; exact hpeq
          · have := List.count_set true true s.workers w hwlt
            simp [pool_step, hw, hq, this, hwget, hcount]
          · simpa [pool_step, hw, hq] using hproc
          · have : n - (t + 1) = m := by omega
            simp [pool_step, hw, hq, hd, this]
      | cons a rest =>
        have hplt : p < items.length := by
          by_contra hc
          rw [List.drop_eq_nil_iff.mpr (by omega)] at hd
          exact List.noConfusion hd
        have ht0 : t = 0 := by
          by_contra hc
          have := hpt (Nat.pos_of_ne_zero hc)
          omega
        have hq : s.queue = Msg.item a :: (rest.map Msg.item ++ List.replicate (n - t) Msg.token) := by
          simp [hqueue, hd]
        have hrest : rest = items.drop (p + 1) := by
          have h2 := List.tail_drop items p
          rw [hd] at h2
          simpa using h2
        have hap : items[p]? = some a := by
          have := List.head?_drop items p
          rw [hd] at this
          simpa using this.symm
        refine ⟨by simpa [pool_step, hw, hq] using hlen, p + 1, t, hplt, ht, ?_, ?_, ?_, ?_⟩
        · intro h0; omega
        · simpa [pool_step, hw, hq] using hcount
        · simp [pool_step, hw, hq, hproc, List.take_succ, hap]
        · simp [pool_step, hw, hq, hrest]

lemma pool_inv_run (n : Nat) (items : List Nat) (sched : List Nat) (s : PoolState)
    (h : PoolInv n items s) : PoolInv n items (run_pool s sched) := by
  induction sched generalizing s with
  | nil => exact h
  | cons w ws ih => exact ih _ (pool_inv_step n items s w h)

lemma pool_inv_drained (n : Nat) (items : List Nat) (s : PoolState)
    (h : PoolInv n items s) (hq : s.queue = []) :
    s.processed.map Prod.snd = items ∧ ∀ b ∈ s.workers, b = true := by
  obtain ⟨hlen, p, t, hp, ht, hpt, hcount, hproc, hqueue⟩ := h
  rw [hq] at hqueue
  have hdrop : items.drop p = [] := by
    cases hd : items.drop p with
    | nil => rfl
    | cons a rest => rw [hd] at hqueue; simp at hqueue
  have hrep : n - t = 0 := by
    cases hnt : n - t with
    | zero => rfl
    | succ m => rw [hdrop, hnt] at hqueue; simp at hqueue
  have hpeq : p = items.length := Nat.le_antisymm hp (List.drop_eq_nil_iff.mp hdrop)
  have hteq : t = n := by omega
  constructor
  · rw [hproc, hpeq, List.take_length]
  · intro b hb
    have : s.workers.count true = s.workers.length := by rw [hcount, hteq, hlen]
    exact (List.count_eq_length.mp this b hb).symm

/-! ## Claim theorems -/

set_option maxRecDepth 100000 in
/-- C1: the claim states the Generator clones the configuration template
before overwriting the two sweep keys, so each WorkItem's config is
independent and never changes after enqueue.  The code does not clone:
the loop mutates the one shared `gs_json` dict in place and enqueues a
reference to it, so after generation that shared dict — the object every
enqueued item references — carries the last grid point's values
F = 0.1, k = 0.5 (100 and 500 thousandths), not the enqueuing point's:
the first item was enqueued with F = 0.01, k = 0.05 but the dict it
references was mutated afterwards. -/
theorem add_gs_runs_shared_config_mutated :
    dictGet (add_gs_runs_to_q (fun _ => false) "/tmp/ens"
        [("Du", JVal.other "0.2")] 10 10).cfg "F" = some (JVal.num 100) ∧
    dictGet (add_gs_runs_to_q (fun _ => false) "/tmp/ens"
        [("Du", JVal.other "0.2")] 10 10).cfg "k" = some (JVal.num 500) ∧
    (add_gs_runs_to_q (fun _ => false) "/tmp/ens"
        [("Du", JVal.other "0.2")] 10 10).enqueued.head?.map Prod.snd =
      some [("Du", JVal.other "0.2"), ("F", JVal.num 10), ("k", JVal.num 50)] ∧
    ¬((add_gs_runs_to_q (fun _ => false) "/tmp/ens"
        [("Du", JVal.other "0.2")] 10 10).enqueued.head?.map Prod.snd =
      some (add_gs_runs_to_q (fun _ => false) "/tmp/ens"
        [("Du", JVal.other "0.2")] 10 10).cfg) := by
  refine ⟨rfl, rfl, rfl, ?_⟩
  intro h
  have h3 : (add_gs_runs_to_q (fun _ => false) "/tmp/ens"
      [("Du", JVal.other "0.2")] 10 10).enqueued.head?.map Prod.snd =
      some [("Du", JVal.other "0.2"), ("F", JVal.num 10), ("k", JVal.num 50)] := rfl
  rw [h3] at h
  have hc := Option.some.inj h
  have h1 : dictGet (add_gs_runs_to_q (fun _ => false) "/tmp/ens"
      [("Du", JVal.other "0.2")] 10 10).cfg "F" = some (JVal.num 100) := rfl
  simp only [← hc] at h1
  simp [dictGet] at h1

/-- C2 counterexample: a run directory that already exists at creation
time is not contained — `os.makedirs` is outside the try block, so the
`FileExistsError` escapes `process_f`: the worker errors out on the first
item instead of surviving and proceeding to the second queued item. -/
theorem process_f_dir_conflict_kills_worker :
    process_f ⟨"/in/adios2.xml", "/in/gs.exe"⟩ (fun _ => 0)
      [some ⟨"/e/F_0.01-k_0.05", []⟩, some ⟨"/e/F_0.01-k_0.1", []⟩, none]
      ⟨["/e/F_0.01-k_0.05"], ["/in/adios2.xml"]⟩ =
      Except.error (ExecError.fileExists "/e/F_0.01-k_0.05") := by
  rfl

/-- C2 amended: only the external process's non-zero exit is contained
within the Run Executor; a pre-existing run directory or a missing
auxiliary descriptor file raises past the worker loop and terminates the
worker, leaving later queue items unprocessed. -/
theorem process_f_uncontained_fs_errors (st : Settings) (ec : String → Int)
    (t : Task) (rest : List (Option Task)) (fs : FS) :
    (fs.dirs.contains t.dirname = true →
      process_f st ec (some t :: rest) fs =
        Except.error (ExecError.fileExists t.dirname)) ∧
    (fs.dirs.contains t.dirname = false →
      (fs.files ++ [os_path_join t.dirname "settings-files.json"]).contains
          st.adios2_xml = false →
      process_f st ec (some t :: rest) fs =
        Except.error (ExecError.fileNotFound st.adios2_xml)) := by
  constructor
  · intro h
    simp at h
    simp [process_f, execute_one, h]
  · intro h1 h2
    simp at h1 h2
    simp [process_f, execute_one, h1, h2.1, h2.2]

theorem process_f_uncontained_fs_errors_witness :
    ((⟨["/e/d1"], []⟩ : FS).dirs.contains
        (⟨"/e/d1", ([] : Config)⟩ : Task).dirname = true) ∧
    process_f ⟨"/a.xml", "/g"⟩ (fun _ => 0) [some ⟨"/e/d1", []⟩, none]
        ⟨["/e/d1"], []⟩ =
      Except.error (ExecError.fileExists "/e/d1") :=
  ⟨by decide,
   (process_f_uncontained_fs_errors ⟨"/a.xml", "/g"⟩ (fun _ => 0) ⟨"/e/d1", []⟩
      [none] ⟨["/e/d1"], []⟩).1 (by decide)⟩

/-- C3: a non-zero exit of the launched external process is caught as
`CalledProcessError`, recorded in the outcome (`logged_failure = true`
with the exit code), and control returns to the worker loop, which goes
on to process the remaining queue items. -/
theorem process_f_nonzero_exit_contained (st : Settings) (ec : String → Int)
    (t : Task) (rest : List (Option Task)) (fs : FS)
    (h1 : fs.dirs.contains t.dirname = false)
    (h2 : (fs.files ++ [os_path_join t.dirname "settings-files.json"]).contains
        st.adios2_xml = true)
    (h3 : ec t.dirname ≠ 0) :
    process_f st ec (some t :: rest) fs =
      Except.map
        (fun r => ⟨r.fs,
          { dirname := t.dirname, exit_code := ec t.dirname,
            logged_failure := true } :: r.outcomes,
          r.settings_reads + 1⟩)
        (process_f st ec rest
          ⟨fs.dirs ++ [t.dirname],
           fs.files ++ [os_path_join t.dirname "settings-files.json",
             os_path_join t.dirname "adios2.xml"]⟩) := by
  simp at h1 h2
  simp only [process_f, execute_one]
  rw [if_neg (by simpa using h1)]
  rw [if_pos (by simpa using h2)]
  have hdec : decide (ec t.dirname ≠ 0) = true := by simp [h3]
  rw [hdec]
  simp only [List.append_assoc, List.singleton_append]
  cases hrec : process_f st ec rest
      ⟨fs.dirs ++ [t.dirname],
       fs.files ++ [os_path_join t.dirname "settings-files.json",
         os_path_join t.dirname "adios2.xml"]⟩ with
  | error e => simp [hrec, Except.map]
  | ok r => simp [hrec, Except.map]

theorem process_f_nonzero_exit_contained_witness :
    ((⟨[], ["/in/adios2.xml"]⟩ : FS).dirs.contains "/e/d1" = false) ∧
    ((["/in/adios2.xml"] ++ [os_path_join "/e/d1" "settings-files.json"]).contains
        "/in/adios2.xml" = true) ∧
    ((fun _ => (1 : Int)) "/e/d1" ≠ 0) ∧
    process_f ⟨"/in/adios2.xml", "/in/gs.exe"⟩ (fun _ => (1 : Int))
        [some ⟨"/e/d1", []⟩, some ⟨"/e/d2", []⟩, none] ⟨[], ["/in/adios2.xml"]⟩ =
      Except.map
        (fun r => ⟨r.fs,
          { dirname := "/e/d1", exit_code := (fun _ => (1 : Int)) "/e/d1",
            logged_failure := true } :: r.outcomes,
          r.settings_reads + 1⟩)
        (process_f ⟨"/in/adios2.xml", "/in/gs.exe"⟩ (fun _ => (1 : Int))
          [some ⟨"/e/d2", []⟩, none]
          ⟨[] ++ ["/e/d1"],
           ["/in/adios2.xml"] ++ [os_path_join "/e/d1" "settings-files.json",
             os_path_join "/e/d1" "adios2.xml"]⟩) :=
  ⟨by decide, by decide, by decide,
   process_f_nonzero_exit_contained ⟨"/in/adios2.xml", "/in/gs.exe"⟩
     (fun _ => (1 : Int)) ⟨"/e/d1", []⟩ [some ⟨"/e/d2", []⟩, none]
     ⟨[], ["/in/adios2.xml"]⟩ (by decide) (by decide) (by decide)⟩

/-- C4: the launch command builder is a pure function of the ambient
environment and the rank count: if any environment variable name starts
with SLURM it yields `srun -n rankCount -N 1`, otherwise
`mpirun -np rankCount`. -/
theorem form_mpi_launch_cmd_env_cases (env : List String) (cc : Nat) :
    ((∃ v ∈ env, py_startswith v "SLURM" = true) →
      form_mpi_launch_cmd env cc = ["srun", "-n", toString cc, "-N", "1"]) ∧
    ((∀ v ∈ env, py_startswith v "SLURM" = false) →
      form_mpi_launch_cmd env cc = ["mpirun", "-np", toString cc]) := by
  constructor
  · intro h
    simp [form_mpi_launch_cmd, has_slurm, List.any_eq_true, h]
  · intro h
    have : has_slurm env = false := by
      simp [has_slurm, List.any_eq_false]
      intro v hv
      simp [h v hv]
    simp [form_mpi_launch_cmd, this]

theorem form_mpi_launch_cmd_env_cases_witness :
    (∃ v ∈ ["SLURM_JOB_NUM_NODES"], py_startswith v "SLURM" = true) ∧
    form_mpi_launch_cmd ["SLURM_JOB_NUM_NODES"] 32 =
      ["srun", "-n", toString 32, "-N", "1"] :=
  ⟨by decide, (form_mpi_launch_cmd_env_cases ["SLURM_JOB_NUM_NODES"] 32).1 (by decide)⟩

/-- C5: over an empty ensemble root, the 2x2 sweep (`base_f = step_f =
0.01`, `base_k = step_k = 0.05`, values rounded to 3 decimals and
canonically formatted) enqueues exactly the four directories
F_0.01-k_0.05, F_0.01-k_0.1, F_0.02-k_0.05, F_0.02-k_0.1, in this
order, whatever the template. -/
theorem add_gs_runs_2x2_dirnames (root : String) (tmpl : Config) :
    (add_gs_runs_to_q (fun _ => false) root tmpl 2 2).enqueued.map Prod.fst =
      [os_path_join root "F_0.01-k_0.05", os_path_join root "F_0.01-k_0.1",
       os_path_join root "F_0.02-k_0.05", os_path_join root "F_0.02-k_0.1"] ∧
    (add_gs_runs_to_q (fun _ => false) root tmpl 2 2).run_count = 4 := by
  constructor <;> rfl

/-- C6: for any filesystem state, the 10x10 Generator enqueues one item
per grid point whose directory does not exist and skips exactly the grid
points whose directory exists, so generated plus skipped is
`count_f * count_k = 100`. -/
theorem add_gs_runs_count_conservation (ex : String → Bool) (root : String)
    (tmpl : Config) :
    (add_gs_runs_to_q ex root tmpl 10 10).enqueued.length +
        (add_gs_runs_to_q ex root tmpl 10 10).skipped.length = 10 * 10 ∧
    (add_gs_runs_to_q ex root tmpl 10 10).skipped =
        (grid_dirnames root 10 10).filter (fun d => ex d) ∧
    (add_gs_runs_to_q ex root tmpl 10 10).enqueued.map Prod.fst =
        (grid_dirnames root 10 10).filter (fun d => !ex d) := by
  obtain ⟨h1, h2, h3, h4⟩ := add_gs_runs_spec ex root tmpl 10 10
  refine ⟨?_, h2, h1⟩
  rw [h4, h2]
  have h5 := List.length_eq_length_filter_add (l := grid_dirnames root 10 10)
    (fun d => ex d)
  rw [grid_dirnames_length_10] at h5
  omega

/-- C7 counterexample: the Generator performs no filesystem writes, so a
second invocation against the unchanged (here empty) ensemble root is the
same computation as the first and yields 100 items again, not zero. -/
theorem gen_rerun_unchanged_fs_yields_again :
    (add_gs_runs_to_q (fun _ => false) "/tmp/ens" [] 10 10).run_count = 100 ∧
    (add_gs_runs_to_q (fun _ => false) "/tmp/ens" [] 10 10).run_count ≠ 0 := by
  have h := (add_gs_runs_spec (fun _ => false) "/tmp/ens" [] 10 10).2.2.1
  have h2 : (add_gs_runs_to_q (fun _ => false) "/tmp/ens" [] 10 10).run_count = 100 := by
    rw [h]
    simp [grid_dirnames_length_10]
  exact ⟨h2, by omega⟩

/-- C7 amended: a second Generator invocation yields zero items provided
no directory was removed and, in between, a directory was created for
every item of the first invocation (as the Run Executor does for each
dequeued item); with the filesystem unchanged the Generator merely
repeats the first invocation's items. -/
theorem gen_rerun_after_creation_yields_zero (ex1 ex2 : String → Bool)
    (root : String) (t1 t2 : Config)
    (hkeep : ∀ d, ex1 d = true → ex2 d = true)
    (hdone : ∀ d ∈ (add_gs_runs_to_q ex1 root t1 10 10).enqueued.map Prod.fst,
      ex2 d = true) :
    (add_gs_runs_to_q ex2 root t2 10 10).enqueued = [] ∧
    (add_gs_runs_to_q ex2 root t2 10 10).run_count = 0 := by
  have h1 := (add_gs_runs_spec ex1 root t1 10 10).1
  obtain ⟨g1, g2, g3, g4⟩ := add_gs_runs_spec ex2 root t2 10 10
  have hall : ∀ d ∈ grid_dirnames root 10 10, ex2 d = true := by
    intro d hd
    by_cases hx : ex1 d = true
    · exact hkeep d hx
    · refine hdone d ?_
      rw [h1]
      refine List.mem_filter.mpr ⟨hd, ?_⟩
      simp [hx]
  have hfilter : (grid_dirnames root 10 10).filter (fun d => !ex2 d) = [] := by
    refine List.filter_eq_nil_iff.mpr ?_
    intro d hd
    simp [hall d hd]
  constructor
  · rw [hfilter] at g1
    exact List.map_eq_nil_iff.mp g1
  · rw [g3, hfilter]
    rfl

theorem gen_rerun_after_creation_yields_zero_witness :
    (∀ d : String, (fun _ => false : String → Bool) d = true →
      (fun _ => true : String → Bool) d = true) ∧
    (∀ d ∈ (add_gs_runs_to_q (fun _ => false) "/e" [] 10 10).enqueued.map
        Prod.fst, (fun _ => true : String → Bool) d = true) ∧
    (add_gs_runs_to_q (fun _ => true) "/e" [] 10 10).enqueued = [] :=
  ⟨fun _ _ => rfl, fun _ _ => rfl,
   (gen_rerun_after_creation_yields_zero (fun _ => false) (fun _ => true) "/e"
      [] [] (fun _ _ => rfl) (fun _ _ => rfl)).1⟩

/-- C8: the supervisor spawns exactly `nodeCount` workers and the FIFO
queue holds every item before any of the `nodeCount` termination tokens;
for any schedule that drains the queue, every item is dequeued exactly
once in aggregate, every worker ends Terminated, and at any earlier point
a worker has only terminated if all items were already claimed; the
supervisor's own event order is spawn*, put-item*, put-token*, join*,
report-done. -/
theorem supervisor_pool_correct (n : Nat) (items : List Nat) (sched : List Nat)
    (hn : 1 ≤ n)
    (hdrained : (run_pool (init_pool n items) sched).queue = []) :
    (init_pool n items).workers.length = n ∧
    (init_pool n items).queue = items.map Msg.item ++ List.replicate n Msg.token ∧
    (run_pool (init_pool n items) sched).processed.map Prod.snd = items ∧
    (∀ b ∈ (run_pool (init_pool n items) sched).workers, b = true) ∧
    (∀ pre suf, sched = pre ++ suf →
        0 < (run_pool (init_pool n items) pre).workers.count true →
        (run_pool (init_pool n items) pre).processed.map Prod.snd = items) ∧
    supervisor_events n items =
      List.replicate n SupEvent.spawn ++ items.map SupEvent.putItem ++
        List.replicate n SupEvent.putToken ++ List.replicate n SupEvent.joinWorker ++
        [SupEvent.reportDone] := by
  have hinv := pool_inv_run n items sched _ (pool_inv_init n items)
  have hfin := pool_inv_drained n items _ hinv hdrained
  refine ⟨by simp [init_pool], rfl, hfin.1, hfin.2, ?_, rfl⟩
  intro pre suf hps hterm
  have hinvp := pool_inv_run n items pre _ (pool_inv_init n items)
  obtain ⟨hlen, p, t, hp, ht, hpt, hcount, hproc, hqueue⟩ := hinvp
  rw [hcount] at hterm
  have hpeq := hpt hterm
  rw [hproc, hpeq, List.take_length]

theorem supervisor_pool_correct_witness :
    1 ≤ 2 ∧ (run_pool (init_pool 2 [5, 7, 9]) [0, 1, 0, 0, 1]).queue = [] ∧
    (run_pool (init_pool 2 [5, 7, 9]) [0, 1, 0, 0, 1]).processed.map Prod.snd =
      [5, 7, 9] ∧
    (∀ b ∈ (run_pool (init_pool 2 [5, 7, 9]) [0, 1, 0, 0, 1]).workers, b = true) :=
  ⟨by decide, by decide,
   (supervisor_pool_correct 2 [5, 7, 9] [0, 1, 0, 0, 1] (by decide) (by decide)).2.2.1,
   (supervisor_pool_correct 2 [5, 7, 9] [0, 1, 0, 0, 1] (by decide) (by decide)).2.2.2.1⟩

/-- C9 counterexample: the worker loop re-opens the startup settings file
(`open(sys.argv[1])` inside `process_f`) once for every item it executes:
one processed item means one read during run execution, refuting "read
exactly once at process start and never re-read". -/
theorem process_f_rereads_settings :
    Except.map WorkerRes.settings_reads
        (process_f ⟨"/in/adios2.xml", "/in/gs.exe"⟩ (fun _ => 0)
          [some ⟨"/e/F_0.01-k_0.05", []⟩, none] ⟨[], ["/in/adios2.xml"]⟩) =
      Except.ok 1 ∧ (1 : Nat) ≠ 0 := by
  constructor
  · rfl
  · decide

/-- C9 amended: the startup configuration is not read only once: besides
the reads at validation and generation time, the Run Executor re-opens
the startup artifact once per WorkItem it processes (it is never
mutated). -/
theorem process_f_settings_reads_per_item (st : Settings) (ec : String → Int)
    (t : Task) (rest : List (Option Task)) (fs : FS)
    (h1 : fs.dirs.contains t.dirname = false)
    (h2 : (fs.files ++ [os_path_join t.dirname "settings-files.json"]).contains
        st.adios2_xml = true) :
    Except.map WorkerRes.settings_reads (process_f st ec (some t :: rest) fs) =
      Except.map (fun r => r.settings_reads + 1)
        (process_f st ec rest
          ⟨fs.dirs ++ [t.dirname],
           fs.files ++ [os_path_join t.dirname "settings-files.json",
             os_path_join t.dirname "adios2.xml"]⟩) := by
  simp at h1 h2
  simp only [process_f, execute_one]
  rw [if_neg (by simpa using h1)]
  rw [if_pos (by simpa using h2)]
  simp only [List.append_assoc, List.singleton_append]
  cases hrec : process_f st ec rest
      ⟨fs.dirs ++ [t.dirname],
       fs.files ++ [os_path_join t.dirname "settings-files.json",
         os_path_join t.dirname "adios2.xml"]⟩ with
  | error e => simp [hrec, Except.map]
  | ok r => simp [hrec, Except.map]

theorem process_f_settings_reads_per_item_witness :
    ((⟨[], ["/in/adios2.xml"]⟩ : FS).dirs.contains "/e/d1" = false) ∧
    ((["/in/adios2.xml"] ++ [os_path_join "/e/d1" "settings-files.json"]).contains
        "/in/adios2.xml" = true) ∧
    Except.map WorkerRes.settings_reads
        (process_f ⟨"/in/adios2.xml", "/in/gs.exe"⟩ (fun _ => 0)
          [some ⟨"/e/d1", []⟩, none] ⟨[], ["/in/adios2.xml"]⟩) =
      Except.map (fun r => r.settings_reads + 1)
        (process_f ⟨"/in/adios2.xml", "/in/gs.exe"⟩ (fun _ => 0) [none]
          ⟨[] ++ ["/e/d1"],
           ["/in/adios2.xml"] ++ [os_path_join "/e/d1" "settings-files.json",
             os_path_join "/e/d1" "adios2.xml"]⟩) :=
  ⟨by decide, by decide,
   process_f_settings_reads_per_item ⟨"/in/adios2.xml", "/in/gs.exe"⟩ (fun _ => 0)
     ⟨"/e/d1", []⟩ [none] ⟨[], ["/in/adios2.xml"]⟩ (by decide) (by decide)⟩

/-- C10: startup validation requires every value of the settings mapping
to be an existing path, not only the four required keys' values: a
mapping with all four required keys plus an extra key whose value does
not exist fails `validate_gs`, and `main` then aborts before spawning any
worker. -/
theorem validate_gs_checks_all_values (ex : String → Bool)
    (input : List (String × String)) (k v : String) (n : Nat) (items : List Nat)
    (hreq : required_keys.all (fun r => input.any (fun p => p.1 = r)) = true)
    (hmem : (k, v) ∈ input) (hextra : k ∉ required_keys) (hne : ex v = false) :
    validate_gs ex input = false ∧
    main_model ex input n items = Except.error "ConfigValidationError" := by
  have hval : validate_gs ex input = false := by
    unfold validate_gs
    rw [hreq, Bool.true_and]
    rw [List.all_eq_false]
    exact ⟨(k, v), hmem, by simp [hne]⟩
  exact ⟨hval, by simp [main_model, hval]⟩

theorem validate_gs_checks_all_values_witness :
    (required_keys.all (fun r =>
      [("gs_exe", "/a"), ("gs_json", "/b"), ("adios2_xml", "/c"),
       ("ensemble_root", "/d"), ("extra_data", "/missing")].any
        (fun p => p.1 = r)) = true) ∧
    (("extra_data", "/missing") ∈
      [("gs_exe", "/a"), ("gs_json", "/b"), ("adios2_xml", "/c"),
       ("ensemble_root", "/d"), ("extra_data", "/missing")]) ∧
    ("extra_data" ∉ required_keys) ∧
    ((fun s => !(s == "/missing")) "/missing" = false) ∧
    validate_gs (fun s => !(s == "/missing"))
      [("gs_exe", "/a"), ("gs_json", "/b"), ("adios2_xml", "/c"),
       ("ensemble_root", "/d"), ("extra_data", "/missing")] = false :=
  ⟨by decide, by decide, by decide, by decide,
   (validate_gs_checks_all_values (fun s => !(s == "/missing"))
      [("gs_exe", "/a"), ("gs_json", "/b"), ("adios2_xml", "/c"),
       ("ensemble_root", "/d"), ("extra_data", "/missing")]
      "extra_data" "/missing" 1 [] (by decide) (by decide) (by decide)
      (by decide)).1⟩

end GS
